import Mathlib

/-!
Verification of `qlib/backtest/high_performance_ds.py`: the order-indicator /
single-metric abstraction (pandas and numpy backends) and the quote-lookup
engine (`PandasQuote`, `CN1min_NumpyQuote`).

Modelling conventions:
* A floating-point cell is `Val`: either the NaN sentinel or a rational number.
* A `pd.Series` (and the repository's `IndexData.Series`, which is not among
  the given source files and is modelled from the spec as a generic labeled
  series) is `PSeries`: an association list from string labels to `Val`.
* Timestamps are natural numbers (minutes); the native frequency of
  `CN1min_NumpyQuote` is one minute.
* Python exceptions are the error side of `Except QErr`; a Python `None`
  result is `Option.none` on the success side.
-/

set_option autoImplicit false

/-- A numeric cell: IEEE NaN sentinel or a concrete number (modelled as ℚ). -/
inductive Val where
  | nan : Val
  | num (q : ℚ) : Val
  deriving DecidableEq

/-- IEEE-style subtraction: any NaN operand gives NaN. -/
def Val.sub : Val → Val → Val
  | .num a, .num b => .num (a - b)
  | _, _ => .nan

/-- IEEE-style `!=` comparison: any comparison involving NaN yields `true`
(in particular `x != NaN` is `true` for every `x`, including NaN itself).
This is the semantics of numpy's elementwise `data != np.NaN`. -/
def Val.neq : Val → Val → Bool
  | .num a, .num b => a != b
  | _, _ => true

/-- Truthiness of a cell under numpy (`NaN` is truthy, a number is truthy
iff nonzero); used by the `all` / `any` reductions. -/
def Val.toBool : Val → Bool
  | .nan => true
  | .num q => q != 0

/-- The concrete number stored in a cell, if any (NaN ↦ `none`). -/
def Val.toNum : Val → Option ℚ
  | .nan => none
  | .num q => some q

/-- A labeled numeric series (the model of `pd.Series` with a string index,
and of the spec's generic labeled series `IndexData.Series`): an association
list label → cell, first occurrence wins on lookup. -/
structure PSeries where
  entries : List (String × Val)
  deriving DecidableEq

/-- The empty series (`pd.Series()` / `IndexData.Series()`). -/
def PSeries.empty : PSeries := ⟨[]⟩

/-- Label lookup, as pandas `.loc` on a unique index. -/
def PSeries.get (s : PSeries) (l : String) : Option Val :=
  s.entries.lookup l

/-- The index of the series, in storage order. -/
def PSeries.labels (s : PSeries) : List String :=
  s.entries.map (·.1)

/-- Number of entries (`len(series)`); NaN entries count. -/
def PSeries.length (s : PSeries) : Nat :=
  s.entries.length

/-- Union of two label lists, keeping the first list's order then the new
labels of the second (pandas aligns on the union of the two indexes). -/
def unionLabels (a b : List String) : List String :=
  a ++ b.filter (fun l => !(a.contains l))

/-- The effective numeric content of an aligned slot: `none` when the label
is absent or the stored cell is NaN (pandas treats both as missing). -/
def effVal : Option Val → Option ℚ
  | some (.num q) => some q
  | _ => none

/-- One aligned slot of `pd.Series.add(other, fill_value)`: when both sides
are missing (absent label or NaN) the result is NaN even with a fill value;
otherwise the missing side, if any, is replaced by the fill value (when one
is given) before adding; without a fill value a single missing side already
gives NaN. -/
def fillAdd (fv : Option ℚ) (a b : Option Val) : Val :=
  match effVal a, effVal b with
  | none, none => .nan
  | x, y =>
    match fv with
    | some f => .num (x.getD f + y.getD f)
    | none =>
      match x, y with
      | some xa, some yb => .num (xa + yb)
      | _, _ => .nan

/-- One aligned slot of `pd.Series` subtraction `a - b` (no fill value):
NaN unless both sides hold concrete numbers. -/
def fillSub (a b : Option Val) : Val :=
  match effVal a, effVal b with
  | some x, some y => .num (x - y)
  | _, _ => .nan

/-- `self.metric.add(other.metric, fill_value=fv)`: union-aligned addition
with optional fill value (the body of `PandasSingleMetric.add`, and the
spec-described `add` contract used by the `IndexData.Series` backend). -/
def PSeries.addWith (a b : PSeries) (fv : Option ℚ) : PSeries :=
  ⟨(unionLabels a.labels b.labels).map (fun l => (l, fillAdd fv (a.get l) (b.get l)))⟩

/-- Union-aligned subtraction `a - b` of two series (pandas `-` operator,
NaN where either side is missing). -/
def PSeries.subAligned (a b : PSeries) : PSeries :=
  ⟨(unionLabels a.labels b.labels).map (fun l => (l, fillSub (a.get l) (b.get l)))⟩

/-- `SingleMetric.__rsub__` with a scalar left operand: the source computes
`self.__class__(other - self.metric)`, i.e. broadcasts `c - a_i` over the
index of `self`. -/
def SingleMetric.rsubScalar (c : ℚ) (self : PSeries) : PSeries :=
  ⟨self.entries.map (fun p => (p.1, Val.sub (.num c) p.2))⟩

/-- `SingleMetric.__rsub__` with a same-class left operand: the source
computes `self.__class__(other.metric - self.metric)`. -/
def SingleMetric.rsubMetric (other self : PSeries) : PSeries :=
  other.subAligned self

/-- Python-level errors raised by this layer: `ValueError` (the spec's
ConfigurationError) and `KeyError` (the spec's LookupError). -/
inductive QErr where
  | valueError : QErr
  | keyError : QErr
  deriving DecidableEq

/-- Aggregation methods accepted by `get_data` / `_agg_data`. `tsDataLast`
models passing the function object `ts_data_last`; `other` models any
unsupported method name. -/
inductive Method where
  | msum | mmean | mlast | mall | many | tsDataLast
  | other (s : String)
  deriving DecidableEq

/-- A successful `get_data` result: a scalar cell, a boolean reduction,
a raw row (1-D over fields), a labeled 1-D slice over time, or a raw 2-D
slice. -/
inductive QResult where
  | scalar (v : Val)
  | boolean (b : Bool)
  | row (r : List Val)
  | series (s : List (Nat × Val))
  | matrix (m : List (List Val))
  deriving DecidableEq

/-- A per-entity quote table (`IndexData.DataFrame`, modelled from the spec's
indexed-array store: time-label rows in strictly increasing order and a fixed
field set): rows pair a time label with the cells of that row. -/
structure NTable where
  rows : List (Nat × List Val)
  cols : List String
  deriving DecidableEq

/-- `index_map[t]`: position of time label `t` in the table, if present
(label → position lookup of the indexed-array store). -/
def NTable.idxMap (tbl : NTable) (t : Nat) : Option Nat :=
  tbl.rows.findIdx? (fun r => r.1 == t)

/-- `columns_map[f]`: position of field `f` in the column index. -/
def NTable.colMap (tbl : NTable) (f : String) : Option Nat :=
  tbl.cols.findIdx? (fun c => c == f)

/-- `.loc(start, end)`: the rows whose time label lies in `[s, e]`
(inclusive label-range slice). -/
def NTable.locRange (tbl : NTable) (s e : Nat) : List (Nat × List Val) :=
  tbl.rows.filter (fun r => s ≤ r.1 && r.1 ≤ e)

/-- `.loc(start, end, field)`: the 1-D labeled slice of column `j` over the
label range `[s, e]`. -/
def NTable.locField (tbl : NTable) (s e : Nat) (j : Nat) : List (Nat × Val) :=
  (tbl.locRange s e).map (fun r => (r.1, r.2.getD j .nan))

/-- A quote backend's state: `self.data` (stock id → per-entity table) and
`self.freq` (native frequency in minutes; 1 for `CN1min_NumpyQuote`). -/
structure Quote where
  data : List (String × NTable)
  freq : Nat
  deriving DecidableEq

/-- Modelled from the spec: `if_single_data(start_time, end_time, freq)` from
`qlib.utils.time` (not among the given source files) — true when
`start == end` and the timestamp aligns to the native frequency. -/
def ifSingleData (s e freq : Nat) : Bool :=
  s == e && s % freq == 0

/-- `np.nansum`: sum of the non-NaN cells (0 when all are NaN). -/
def nanSum (data : List Val) : Val :=
  .num ((data.filterMap Val.toNum).sum)

/-- `np.nanmean`: mean of the non-NaN cells, NaN when there are none. -/
def nanMean (data : List Val) : Val :=
  match data.filterMap Val.toNum with
  | [] => .nan
  | xs => .num (xs.sum / xs.length)

/-- `CN1min_NumpyQuote._agg_data(data, method)`: aggregates a 1-D slice.
Note the `ts_data_last` branch filters with `data != np.NaN`, which under
IEEE comparison keeps every element. -/
def aggData (data : List Val) (m : Method) : Except QErr (Option QResult) :=
  match m with
  | .msum => .ok (some (.scalar (nanSum data)))
  | .mmean => .ok (some (.scalar (nanMean data)))
  | .mlast => .ok (some (.scalar (data.getLastD .nan)))
  | .mall => .ok (some (.boolean (data.all Val.toBool)))
  | .many => .ok (some (.boolean (data.any Val.toBool)))
  | .tsDataLast =>
    let valid := data.filter (fun x => Val.neq x .nan)
    match valid with
    | [] => .ok none
    | v :: _ => .ok (some (.scalar v))
  | .other _ => .error .valueError

/-- `CN1min_NumpyQuote.get_data`: validity check, unknown-stock check,
single-timestamp fast path via `index_map`, then the multi-timestamp slice
path with the three field/method cases. -/
def CN1minNumpyQuote.getData (q : Quote) (stock : String) (s e : Nat)
    (fields : Option String) (method : Option Method) :
    Except QErr (Option QResult) :=
  if fields = none ∧ method ≠ none then .error .valueError
  else
    match q.data.lookup stock with
    | none => .ok none
    | some tbl =>
      if ifSingleData s e q.freq then
        match tbl.idxMap s with
        | none => .ok none
        | some i =>
          match fields with
          | none => .ok (some (.row ((tbl.rows.getD i (0, [])).2)))
          | some f =>
            match tbl.colMap f with
            | none => .error .keyError
            | some j =>
              .ok (some (.scalar ((tbl.rows.getD i (0, [])).2.getD j .nan)))
      else
        match fields, method with
        | none, none =>
          let sd := tbl.locRange s e
          if sd.isEmpty then .ok none else .ok (some (.matrix (sd.map (·.2))))
        | some f, none =>
          match tbl.colMap f with
          | none => .error .keyError
          | some j =>
            let sd := tbl.locField s e j
            if sd.isEmpty then .ok none else .ok (some (.series sd))
        | some f, some m =>
          match tbl.colMap f with
          | none => .error .keyError
          | some j =>
            let sd := tbl.locField s e j
            if sd.isEmpty then .ok none
            else if sd.length == 1 then .ok (some (.scalar (sd.getD 0 (0, .nan)).2))
            else aggData (sd.map (·.2)) m
        | none, some _ => .ok none

/-- Modelled from the spec: the aggregation applied by `resam_ts_data` from
`qlib.utils.resam` (not among the given source files) — `sum`/`mean` are
NaN-skipping, `last` keeps NaN, `all`/`any` reduce booleans, and
`ts_data_last` returns the first non-NaN value, None when all are missing. -/
def aggSpec (data : List Val) (m : Method) : Except QErr (Option QResult) :=
  match m with
  | .msum => .ok (some (.scalar (nanSum data)))
  | .mmean => .ok (some (.scalar (nanMean data)))
  | .mlast => .ok (some (.scalar (data.getLastD .nan)))
  | .mall => .ok (some (.boolean (data.all Val.toBool)))
  | .many => .ok (some (.boolean (data.any Val.toBool)))
  | .tsDataLast =>
    match data.filter (fun x => x.toNum.isSome) with
    | [] => .ok none
    | v :: _ => .ok (some (.scalar v))
  | .other _ => .error .valueError

/-- Modelled from the spec: `resam_ts_data(series, start, end, method)` on a
1-D column slice — slice rows in `[start, end]` by label, return None on an
empty selection, the raw slice when `method` is None, and otherwise the
aggregate (a singleton slice is returned as its scalar). -/
def resamTsDataField (tbl : NTable) (s e : Nat) (j : Nat) (method : Option Method) :
    Except QErr (Option QResult) :=
  let sd := tbl.locField s e j
  if sd.isEmpty then .ok none
  else
    match method with
    | none => .ok (some (.series sd))
    | some m =>
      if sd.length == 1 then .ok (some (.scalar (sd.getD 0 (0, .nan)).2))
      else aggSpec (sd.map (·.2)) m

/-- `PandasQuote.get_data`: the validity check is in the given source; the
lookup `self.data[stock_id]` is a plain dict access that raises `KeyError`
for an unknown stock id; the 2-D (`fields is None`, hence `method is None`)
case and the per-field case delegate to `resam_ts_data` (modelled above). -/
def PandasQuote.getData (q : Quote) (stock : String) (s e : Nat)
    (fields : Option String) (method : Option Method) :
    Except QErr (Option QResult) :=
  if fields = none ∧ method ≠ none then .error .valueError
  else
    match q.data.lookup stock with
    | none => .error .keyError
    | some tbl =>
      match fields with
      | none =>
        let sd := tbl.locRange s e
        if sd.isEmpty then .ok none else .ok (some (.matrix (sd.map (·.2))))
      | some f =>
        match tbl.colMap f with
        | none => .error .keyError
        | some j => resamTsDataField tbl s e j method

/-- An ordered-dict state `self.data` of an order indicator: metric name →
series (insertion-ordered association list, unique keys). Both backends use
this shape; the pandas one stores `PandasSingleMetric` wrappers around a
`pd.Series` and the numpy one stores `IndexData.Series`, both modelled as
`PSeries`. -/
structure OrderIndicatorState where
  data : List (String × PSeries)
  deriving DecidableEq

/-- Ordered-dict assignment `self.data[col] = v`: overwrite in place when the
key exists (keeping its position), append otherwise. -/
def assocSet : List (String × PSeries) → String → PSeries → List (String × PSeries)
  | [], k, v => [(k, v)]
  | p :: t, k, v => if p.1 = k then (k, v) :: t else p :: assocSet t k v

/-- `PandasOrderIndicator.assign(col, metric)` (also the effect of the
numpy backend's direct `self.data[metric] = ...`). -/
def OrderIndicatorState.assign (ind : OrderIndicatorState) (col : String)
    (v : PSeries) : OrderIndicatorState :=
  ⟨assocSet ind.data col v⟩

/-- `PandasOrderIndicator.get_metric_series(metric)`: the stored series when
the name is present, `pd.Series()` otherwise — it never raises. -/
def PandasOrderIndicator.getMetricSeries (ind : OrderIndicatorState)
    (metric : String) : PSeries :=
  match ind.data.lookup metric with
  | some s => s
  | none => PSeries.empty

/-- `NumpyOrderIndicator.get_metric_series(metric)`: the source is
`return self.data[metric].to_pd_series()` — a plain dict access, so a
missing name raises `KeyError` (`to_pd_series` itself, from the spec's
labeled-series library, is the identity on our model). -/
def NumpyOrderIndicator.getMetricSeries (ind : OrderIndicatorState)
    (metric : String) : Except QErr PSeries :=
  match ind.data.lookup metric with
  | some s => .ok s
  | none => .error .keyError

/-- The accumulator loop of `sum_all_indicators` for one metric name:
`tmp = empty; for indicator in indicators: tmp = tmp.add(indicator.data[metric], fill_value)`.
`indicator.data[metric]` is a plain dict access, raising `KeyError` when an
inner indicator lacks the metric. -/
def sumOneMetric (indicators : List OrderIndicatorState) (metric : String)
    (fv : Option ℚ) : Except QErr PSeries :=
  indicators.foldlM
    (fun acc ind =>
      match ind.data.lookup metric with
      | some s => .ok (acc.addWith s fv)
      | none => .error .keyError)
    PSeries.empty

/-- The shared loop of both backends' `sum_all_indicators`: for each metric
name in order, accumulate over `indicators` and assign into the target. -/
def sumAllGo (indicators : List OrderIndicatorState) (fv : Option ℚ) :
    List String → OrderIndicatorState → Except QErr OrderIndicatorState
  | [], target => .ok target
  | m :: ms, target => do
    let tmp ← sumOneMetric indicators m fv
    sumAllGo indicators fv ms (target.assign m tmp)

/-- `PandasOrderIndicator.sum_all_indicators(order_indicator, indicators,
metrics, fill_value=None)` with an explicit fill value. -/
def PandasOrderIndicator.sumAllIndicators (target : OrderIndicatorState)
    (indicators : List OrderIndicatorState) (metrics : List String)
    (fv : Option ℚ) : Except QErr OrderIndicatorState :=
  sumAllGo indicators fv metrics target

/-- The default `fill_value` of `PandasOrderIndicator.sum_all_indicators`:
`None` (leave missing). -/
def PandasOrderIndicator.sumAllDefaultFill : Option ℚ := none

/-- `PandasOrderIndicator.sum_all_indicators` as called with `fill_value`
omitted. -/
def PandasOrderIndicator.sumAllIndicatorsDefault (target : OrderIndicatorState)
    (indicators : List OrderIndicatorState) (metrics : List String) :
    Except QErr OrderIndicatorState :=
  PandasOrderIndicator.sumAllIndicators target indicators metrics
    PandasOrderIndicator.sumAllDefaultFill

/-- `NumpyOrderIndicator.sum_all_indicators(order_indicator, indicators,
metrics, fill_value=0)` with an explicit fill value; the accumulation uses
`IndexData.Series.add`, modelled from the spec by the same union-aligned
`add` contract. -/
def NumpyOrderIndicator.sumAllIndicators (target : OrderIndicatorState)
    (indicators : List OrderIndicatorState) (metrics : List String)
    (fv : Option ℚ) : Except QErr OrderIndicatorState :=
  sumAllGo indicators fv metrics target

/-- The default `fill_value` of `NumpyOrderIndicator.sum_all_indicators`:
`0`. -/
def NumpyOrderIndicator.sumAllDefaultFill : Option ℚ := some 0

/-- `NumpyOrderIndicator.sum_all_indicators` as called with `fill_value`
omitted. -/
def NumpyOrderIndicator.sumAllIndicatorsDefault (target : OrderIndicatorState)
    (indicators : List OrderIndicatorState) (metrics : List String) :
    Except QErr OrderIndicatorState :=
  NumpyOrderIndicator.sumAllIndicators target indicators metrics
    NumpyOrderIndicator.sumAllDefaultFill

deriving instance DecidableEq for Except

/-! ### Supporting lemmas -/

theorem lookup_map_key (f : String → Val) (L : List String) (x : String) :
    (L.map (fun l => (l, f l))).lookup x = if x ∈ L then some (f x) else none := by
  induction L with
  | nil => simp
  | cons a t ih =>
    by_cases h : x = a
    · subst h; simp [List.lookup]
    · have hb : (x == a) = false := beq_eq_false_iff_ne.mpr h
      simp [List.lookup, hb, h, ih]

theorem lookup_map_snd (g : Val → Val) (e : List (String × Val)) (x : String) :
    (e.map (fun p => (p.1, g p.2))).lookup x = (e.lookup x).map g := by
  induction e with
  | nil => simp
  | cons p t ih =>
    by_cases h : x = p.1
    · subst h; simp [List.lookup]
    · have hb : (x == p.1) = false := beq_eq_false_iff_ne.mpr h
      simp [List.lookup, hb, ih]

theorem mem_unionLabels (A B : List String) (x : String) :
    x ∈ unionLabels A B ↔ x ∈ A ∨ x ∈ B := by
  by_cases h : x ∈ A
  · simp [unionLabels, h]
  · simp [unionLabels, h, List.mem_filter]

theorem get_addWith (a b : PSeries) (fv : Option ℚ) (x : String) :
    (a.addWith b fv).get x =
      if x ∈ unionLabels a.labels b.labels
      then some (fillAdd fv (a.get x) (b.get x)) else none := by
  simp [PSeries.addWith, PSeries.get, lookup_map_key]

theorem get_subAligned (a b : PSeries) (x : String) :
    (a.subAligned b).get x =
      if x ∈ unionLabels a.labels b.labels
      then some (fillSub (a.get x) (b.get x)) else none := by
  simp [PSeries.subAligned, PSeries.get, lookup_map_key]

theorem labels_addWith (a b : PSeries) (fv : Option ℚ) :
    (a.addWith b fv).labels = unionLabels a.labels b.labels := by
  show List.map _ (List.map _ _) = _
  rw [List.map_map]
  exact List.map_id _

theorem lookup_assocSet (d : List (String × PSeries)) (k : String) (v : PSeries)
    (x : String) :
    (assocSet d k v).lookup x = if x = k then some v else d.lookup x := by
  induction d with
  | nil =>
    by_cases h : x = k
    · subst h; simp [assocSet, List.lookup]
    · have hb : (x == k) = false := beq_eq_false_iff_ne.mpr h
      simp [assocSet, List.lookup, hb, h]
  | cons p t ih =>
    by_cases hpk : p.1 = k
    · by_cases hxk : x = k
      · subst hxk; simp [assocSet, hpk, List.lookup]
      · have hb : (x == k) = false := beq_eq_false_iff_ne.mpr hxk
        have hb2 : (x == p.1) = false := beq_eq_false_iff_ne.mpr (hpk ▸ hxk)
        simp [assocSet, hpk, List.lookup, hb, hb2, hxk]
    · by_cases hxp : x = p.1
      · have hxk : x ≠ k := fun h => hpk (hxp ▸ h)
        have hb : (x == k) = false := beq_eq_false_iff_ne.mpr hxk
        have hb2 : (x == p.1) = true := beq_iff_eq.mpr hxp
        simp [assocSet, hpk, List.lookup, hb, hb2, hxk]
      · have hb : (x == p.1) = false := beq_eq_false_iff_ne.mpr hxp
        simp [assocSet, hpk, List.lookup, hb, ih]

theorem sumOneMetric_nil (metric : String) (fv : Option ℚ) :
    sumOneMetric [] metric fv = .ok PSeries.empty := rfl

theorem sumAllGo_nil (fv : Option ℚ) (ms : List String)
    (target : OrderIndicatorState) :
    sumAllGo [] fv ms target =
      .ok (ms.foldl (fun t m' => t.assign m' PSeries.empty) target) := by
  induction ms generalizing target with
  | nil => rfl
  | cons a rest ih =>
    show (do
        let tmp ← sumOneMetric [] a fv
        sumAllGo [] fv rest (OrderIndicatorState.assign target a tmp)) = _
    rw [sumOneMetric_nil]
    show sumAllGo [] fv rest (target.assign a PSeries.empty) = _
    rw [ih]
    rfl

theorem lookup_foldl_assign_not_mem (ms : List String) (t : OrderIndicatorState)
    (m : String) (hm : m ∉ ms) :
    ((ms.foldl (fun t' m' => t'.assign m' PSeries.empty) t).data).lookup m =
      t.data.lookup m := by
  induction ms generalizing t with
  | nil => rfl
  | cons a rest ih =>
    have hma : m ≠ a := fun h => hm (h ▸ List.mem_cons_self a rest)
    have hmr : m ∉ rest := fun h => hm (List.mem_cons_of_mem a h)
    show ((rest.foldl _ (t.assign a PSeries.empty)).data).lookup m = _
    rw [ih _ hmr]
    show (assocSet t.data a PSeries.empty).lookup m = _
    rw [lookup_assocSet]
    simp [hma]

theorem lookup_foldl_assign_mem (ms : List String) (t : OrderIndicatorState)
    (m : String) (hm : m ∈ ms) :
    ((ms.foldl (fun t' m' => t'.assign m' PSeries.empty) t).data).lookup m =
      some PSeries.empty := by
  induction ms generalizing t with
  | nil => cases hm
  | cons a rest ih =>
    show ((rest.foldl _ (t.assign a PSeries.empty)).data).lookup m = _
    by_cases hmr : m ∈ rest
    · exact ih _ hmr
    · have hma : m = a := by
        rcases List.mem_cons.mp hm with h | h
        · exact h
        · exact absurd h hmr
      subst hma
      rw [lookup_foldl_assign_not_mem _ _ _ hmr]
      show (assocSet t.data m PSeries.empty).lookup m = _
      rw [lookup_assocSet]
      simp

/-! ### Claim theorems -/

/-- C1: the pandas backend's `get_metric_series` returns the stored metric
or an empty series for a missing name, but the numpy backend's
`get_metric_series` raises `KeyError` for a missing name (a plain dict
access), contradicting the base-class contract that a missing name yields
`pd.Series()`: evaluated at an indicator holding no metrics and the absent
name "ffr". -/
theorem getMetricSeries_missing_name_eval :
    PandasOrderIndicator.getMetricSeries ⟨[]⟩ "ffr" = PSeries.empty
    ∧ NumpyOrderIndicator.getMetricSeries ⟨[]⟩ "ffr" = .error .keyError
    ∧ (∀ (ind : OrderIndicatorState) (name : String) (s : PSeries),
        ind.data.lookup name = some s →
          PandasOrderIndicator.getMetricSeries ind name = s
          ∧ NumpyOrderIndicator.getMetricSeries ind name = .ok s) := by
  refine ⟨rfl, rfl, fun ind name s h => ?_⟩
  constructor
  · simp [PandasOrderIndicator.getMetricSeries, h]
  · simp [NumpyOrderIndicator.getMetricSeries, h]

/-- C1 witness: the general present-name part of the theorem applied at a
concrete one-metric indicator. -/
theorem getMetricSeries_missing_name_eval_witness :
    PandasOrderIndicator.getMetricSeries ⟨[("ffr", ⟨[("s1", .num 1)]⟩)]⟩ "ffr"
        = ⟨[("s1", .num 1)]⟩
    ∧ NumpyOrderIndicator.getMetricSeries ⟨[("ffr", ⟨[("s1", .num 1)]⟩)]⟩ "ffr"
        = .ok ⟨[("s1", .num 1)]⟩ :=
  getMetricSeries_missing_name_eval.2.2 ⟨[("ffr", ⟨[("s1", .num 1)]⟩)]⟩ "ffr"
    ⟨[("s1", .num 1)]⟩ (by decide)

/-- C5: `_agg_data` with `ts_data_last` does not return the first non-NaN
value: its filter `data != np.NaN` keeps every element (any IEEE comparison
with NaN yields true), so it returns `data[0]` even when that is NaN, and
its all-missing guard is dead code for nonempty input. At `[NaN, 5]` the code
yields NaN where the claim requires 5; at `[NaN, NaN]` it yields NaN where
the claim requires None. The spec-modelled aggregation shows the intended
value. -/
theorem aggData_tsDataLast_filter_noop :
    aggData [.nan, .num 5] .tsDataLast = .ok (some (.scalar .nan))
    ∧ aggData [.nan, .nan] .tsDataLast = .ok (some (.scalar .nan))
    ∧ aggSpec [.nan, .num 5] .tsDataLast = .ok (some (.scalar (.num 5)))
    ∧ aggSpec [.nan, .nan] .tsDataLast = .ok none
    ∧ (∀ data : List Val, data.filter (fun x => Val.neq x .nan) = data) := by
  refine ⟨by decide, by decide, by decide, by decide, fun data => ?_⟩
  apply List.filter_eq_self.mpr
  intro a _
  cases a <;> rfl

/-- C6: the two backends' `sum_all_indicators` defaults differ — pandas
defaults to `fill_value=None` (leave missing) and numpy to `fill_value=0` —
and an omitted `fill_value` sums with the backend's own default; on a
concrete singleton input the defaults produce visibly different results
(an all-NaN metric versus the summed values). -/
theorem sumAllIndicators_default_fill_asymmetry :
    PandasOrderIndicator.sumAllDefaultFill = none
    ∧ NumpyOrderIndicator.sumAllDefaultFill = some 0
    ∧ (∀ (t : OrderIndicatorState) (inds : List OrderIndicatorState)
        (ms : List String),
        PandasOrderIndicator.sumAllIndicatorsDefault t inds ms
          = PandasOrderIndicator.sumAllIndicators t inds ms none
        ∧ NumpyOrderIndicator.sumAllIndicatorsDefault t inds ms
          = NumpyOrderIndicator.sumAllIndicators t inds ms (some 0))
    ∧ PandasOrderIndicator.sumAllIndicatorsDefault ⟨[]⟩
        [⟨[("ffr", ⟨[("s1", .num 5)]⟩)]⟩] ["ffr"]
        = .ok ⟨[("ffr", ⟨[("s1", .nan)]⟩)]⟩
    ∧ NumpyOrderIndicator.sumAllIndicatorsDefault ⟨[]⟩
        [⟨[("ffr", ⟨[("s1", .num 5)]⟩)]⟩] ["ffr"]
        = .ok ⟨[("ffr", ⟨[("s1", .num 5)]⟩)]⟩ := by
  refine ⟨rfl, rfl, fun _ _ _ => ⟨rfl, rfl⟩, by decide, ?_⟩
  have h : NumpyOrderIndicator.sumAllIndicatorsDefault ⟨[]⟩
      [⟨[("ffr", ⟨[("s1", .num 5)]⟩)]⟩] ["ffr"]
      = .ok ⟨[("ffr", ⟨[("s1", .num ((0 : ℚ) + 5))]⟩)]⟩ := rfl
  norm_num at h
  exact h

/-- C9: in both quote backends, `get_data` with `fields=None` and a non-None
`method` raises `ValueError` immediately, for every engine state, stock id
and time range. -/
theorem getData_method_without_field_valueError (q : Quote) (stock : String)
    (s e : Nat) (m : Method) :
    PandasQuote.getData q stock s e none (some m) = .error .valueError
    ∧ CN1minNumpyQuote.getData q stock s e none (some m) = .error .valueError := by
  constructor
  · simp [PandasQuote.getData]
  · simp [CN1minNumpyQuote.getData]

theorem mem_labels_of_lookup_some {e : List (String × Val)} {x : String} {v : Val}
    (h : e.lookup x = some v) : x ∈ e.map (·.1) := by
  induction e with
  | nil => simp [List.lookup] at h
  | cons p t ih =>
    by_cases hx : x = p.1
    · simp [hx]
    · have hb : (x == p.1) = false := beq_eq_false_iff_ne.mpr hx
      simp [List.lookup, hb] at h
      simp [ih h]

theorem fillAdd_not_both_missing (f : ℚ) (a b : Option Val)
    (h : (effVal a).isSome = true ∨ (effVal b).isSome = true) :
    fillAdd (some f) a b = .num ((effVal a).getD f + (effVal b).getD f) := by
  rcases ha : effVal a with _ | x <;> rcases hb : effVal b with _ | y <;>
    simp [fillAdd, ha, hb]
  rw [ha, hb] at h
  simp at h

theorem fillAdd_both_missing (fv : Option ℚ) (a b : Option Val)
    (ha : effVal a = none) (hb : effVal b = none) :
    fillAdd fv a b = .nan := by
  simp [fillAdd, ha, hb]

/-- C7: `SingleMetric.__rsub__` computes the mathematically correct order:
with a scalar left operand the entry at each label is `c - a_i` (NaN entries
stay NaN), never `a_i - c` (witnessed by `5 - 3 = 2`); with a same-class left
operand it computes `other - self` aligned on the union of the labels. -/
theorem rsub_reflected_order (c : ℚ) (A B : PSeries) (l : String) :
    (SingleMetric.rsubScalar c A).get l = (A.get l).map (fun v => Val.sub (.num c) v)
    ∧ (SingleMetric.rsubMetric B A).get l =
        (if l ∈ unionLabels B.labels A.labels
         then some (fillSub (B.get l) (A.get l)) else none)
    ∧ (SingleMetric.rsubScalar 5 ⟨[("s1", .num 3)]⟩).get "s1" = some (.num 2) := by
  refine ⟨?_, get_subAligned B A l, ?_⟩
  · simp [SingleMetric.rsubScalar, PSeries.get, lookup_map_snd]
  · have h : (SingleMetric.rsubScalar 5 ⟨[("s1", .num 3)]⟩).get "s1"
        = some (.num ((5 : ℚ) - 3)) := rfl
    norm_num at h
    exact h

/-- C3 counterexample: for `A = {s1: NaN, s2: 1}` and `B = {s1: NaN, s3: 2}`
(overlapping but non-identical label sets), `A.add(B, fill_value=0)` yields
NaN at `s1` — not `0 + 0 = 0` as "each value equals a + b with a missing
side treated as 0" would require: pandas leaves a label missing on both
sides missing even with a fill value. -/
theorem addWith_fill_zero_counterexample :
    (PSeries.addWith ⟨[("s1", .nan), ("s2", .num 1)]⟩
        ⟨[("s1", .nan), ("s3", .num 2)]⟩ (some 0)).get "s1" = some .nan
    ∧ some Val.nan ≠ some (Val.num 0)
    ∧ "s1" ∈ PSeries.labels ⟨[("s1", .nan), ("s2", .num 1)]⟩
    ∧ "s1" ∈ PSeries.labels ⟨[("s1", .nan), ("s3", .num 2)]⟩
    ∧ PSeries.labels ⟨[("s1", .nan), ("s2", .num 1)]⟩
        ≠ PSeries.labels ⟨[("s1", .nan), ("s3", .num 2)]⟩ := by decide

/-- C3 amended: for Single Metrics with overlapping but non-identical label
sets, `A.add(B, fill_value=0)` has exactly the union of the label sets, and
at every label where at least one side is non-missing (present with a
non-NaN value) the value is `a + b` with the missing side treated as 0; a
label missing (absent or NaN) on both sides stays NaN in the result. -/
theorem addWith_fill_zero_union (A B : PSeries) (l x : String)
    (hov : ∃ y, y ∈ A.labels ∧ y ∈ B.labels)
    (hne : A.labels ≠ B.labels) :
    (A.addWith B (some 0)).labels = unionLabels A.labels B.labels
    ∧ (x ∈ (A.addWith B (some 0)).labels ↔ x ∈ A.labels ∨ x ∈ B.labels)
    ∧ (effVal (A.get l) = none → effVal (B.get l) = none →
        l ∈ unionLabels A.labels B.labels →
        (A.addWith B (some 0)).get l = some .nan)
    ∧ ((effVal (A.get l)).isSome = true ∨ (effVal (B.get l)).isSome = true →
        (A.addWith B (some 0)).get l =
          some (.num ((effVal (A.get l)).getD 0 + (effVal (B.get l)).getD 0))) := by
  refine ⟨labels_addWith A B (some 0), ?_, ?_, ?_⟩
  · rw [labels_addWith]
    exact mem_unionLabels A.labels B.labels x
  · intro ha hb hmem
    rw [get_addWith, if_pos hmem, fillAdd_both_missing (some 0) _ _ ha hb]
  · intro h
    have hmem : l ∈ unionLabels A.labels B.labels := by
      rw [mem_unionLabels]
      rcases h with h | h
      · rcases hA : A.get l with _ | v
        · rw [hA] at h; simp [effVal] at h
        · exact Or.inl (mem_labels_of_lookup_some hA)
      · rcases hB : B.get l with _ | v
        · rw [hB] at h; simp [effVal] at h
        · exact Or.inr (mem_labels_of_lookup_some hB)
    rw [get_addWith, if_pos hmem, fillAdd_not_both_missing 0 _ _ h]

/-- C3 amended witness: the theorem applied at `A = {s1: 1, s2: 2}`,
`B = {s1: 3, s3: 4}` and label `s2` (present in A only: value `2 + 0`). -/
theorem addWith_fill_zero_union_witness :
    (PSeries.addWith ⟨[("s1", .num 1), ("s2", .num 2)]⟩
        ⟨[("s1", .num 3), ("s3", .num 4)]⟩ (some 0)).labels
      = unionLabels (PSeries.labels ⟨[("s1", .num 1), ("s2", .num 2)]⟩)
          (PSeries.labels ⟨[("s1", .num 3), ("s3", .num 4)]⟩)
    ∧ ("s3" ∈ (PSeries.addWith ⟨[("s1", .num 1), ("s2", .num 2)]⟩
          ⟨[("s1", .num 3), ("s3", .num 4)]⟩ (some 0)).labels
        ↔ "s3" ∈ PSeries.labels ⟨[("s1", .num 1), ("s2", .num 2)]⟩
          ∨ "s3" ∈ PSeries.labels ⟨[("s1", .num 3), ("s3", .num 4)]⟩)
    ∧ (effVal ((⟨[("s1", .num 1), ("s2", .num 2)]⟩ : PSeries).get "s2") = none →
        effVal ((⟨[("s1", .num 3), ("s3", .num 4)]⟩ : PSeries).get "s2") = none →
        "s2" ∈ unionLabels (PSeries.labels ⟨[("s1", .num 1), ("s2", .num 2)]⟩)
          (PSeries.labels ⟨[("s1", .num 3), ("s3", .num 4)]⟩) →
        (PSeries.addWith ⟨[("s1", .num 1), ("s2", .num 2)]⟩
            ⟨[("s1", .num 3), ("s3", .num 4)]⟩ (some 0)).get "s2" = some .nan)
    ∧ ((effVal ((⟨[("s1", .num 1), ("s2", .num 2)]⟩ : PSeries).get "s2")).isSome = true
        ∨ (effVal ((⟨[("s1", .num 3), ("s3", .num 4)]⟩ : PSeries).get "s2")).isSome = true →
        (PSeries.addWith ⟨[("s1", .num 1), ("s2", .num 2)]⟩
            ⟨[("s1", .num 3), ("s3", .num 4)]⟩ (some 0)).get "s2" =
          some (.num ((effVal ((⟨[("s1", .num 1), ("s2", .num 2)]⟩ : PSeries).get "s2")).getD 0
            + (effVal ((⟨[("s1", .num 3), ("s3", .num 4)]⟩ : PSeries).get "s2")).getD 0))) :=
  addWith_fill_zero_union ⟨[("s1", .num 1), ("s2", .num 2)]⟩
    ⟨[("s1", .num 3), ("s3", .num 4)]⟩ "s2" "s3"
    ⟨"s1", by decide⟩ (by decide)

/-- C2 counterexample: `PandasQuote.get_data` does not check the stock id —
`self.data[stock_id]` raises `KeyError` for an unknown stock id, instead of
returning None ("no data"): evaluated at an engine holding only stock "A"
and the unknown id "B". -/
theorem pandasQuote_unknown_stock_counterexample :
    PandasQuote.getData ⟨[("A", ⟨[(1, [.num 10])], ["$close"]⟩)], 1⟩
        "B" 1 1 none none = .error .keyError
    ∧ (Except.error .keyError : Except QErr (Option QResult)) ≠ .ok none := by
  exact ⟨rfl, by decide⟩

/-- C2 amended: for an unknown stock id (and otherwise valid arguments),
the performance backend `CN1min_NumpyQuote.get_data` returns None, while the
reference backend `PandasQuote.get_data` raises `KeyError`. -/
theorem getData_unknown_stock (q : Quote) (stock : String) (s e : Nat)
    (fields : Option String) (method : Option Method)
    (hvalid : ¬(fields = none ∧ method ≠ none))
    (hunknown : q.data.lookup stock = none) :
    CN1minNumpyQuote.getData q stock s e fields method = .ok none
    ∧ PandasQuote.getData q stock s e fields method = .error .keyError := by
  constructor
  · simp [CN1minNumpyQuote.getData, hvalid, hunknown]
  · simp [PandasQuote.getData, hvalid, hunknown]

/-- C2 amended witness: the amended theorem at a concrete engine holding
only stock "A", queried for the unknown id "B". -/
theorem getData_unknown_stock_witness :
    CN1minNumpyQuote.getData ⟨[("A", ⟨[(1, [.num 10])], ["$close"]⟩)], 1⟩
        "B" 1 1 none none = .ok none
    ∧ PandasQuote.getData ⟨[("A", ⟨[(1, [.num 10])], ["$close"]⟩)], 1⟩
        "B" 1 1 none none = .error .keyError :=
  getData_unknown_stock ⟨[("A", ⟨[(1, [.num 10])], ["$close"]⟩)], 1⟩
    "B" 1 1 none none (by decide) (by decide)

/-- C4: with an empty `indicators` list, `sum_all_indicators` of either
backend succeeds for every target, metric-name list and fill value, and the
resulting target holds an empty (zero-length) metric under every requested
name. -/
theorem sumAllIndicators_empty_indicators (target : OrderIndicatorState)
    (metrics : List String) (fvp fvn : Option ℚ) (m : String) (hm : m ∈ metrics) :
    ∃ t' : OrderIndicatorState,
      PandasOrderIndicator.sumAllIndicators target [] metrics fvp = .ok t'
      ∧ NumpyOrderIndicator.sumAllIndicators target [] metrics fvn = .ok t'
      ∧ PandasOrderIndicator.getMetricSeries t' m = PSeries.empty
      ∧ (PandasOrderIndicator.getMetricSeries t' m).length = 0
      ∧ NumpyOrderIndicator.getMetricSeries t' m = .ok PSeries.empty := by
  refine ⟨metrics.foldl (fun t m' => t.assign m' PSeries.empty) target,
    sumAllGo_nil fvp metrics target, sumAllGo_nil fvn metrics target, ?_, ?_, ?_⟩
  · simp [PandasOrderIndicator.getMetricSeries,
      lookup_foldl_assign_mem metrics target m hm]
  · simp [PandasOrderIndicator.getMetricSeries,
      lookup_foldl_assign_mem metrics target m hm]
    rfl
  · simp [NumpyOrderIndicator.getMetricSeries,
      lookup_foldl_assign_mem metrics target m hm]

/-- C4 witness: the theorem at an empty target, metric list `["ffr"]` and
the two backends' own default fill values. -/
theorem sumAllIndicators_empty_indicators_witness :
    ∃ t' : OrderIndicatorState,
      PandasOrderIndicator.sumAllIndicators ⟨[]⟩ [] ["ffr"] none = .ok t'
      ∧ NumpyOrderIndicator.sumAllIndicators ⟨[]⟩ [] ["ffr"] (some 0) = .ok t'
      ∧ PandasOrderIndicator.getMetricSeries t' "ffr" = PSeries.empty
      ∧ (PandasOrderIndicator.getMetricSeries t' "ffr").length = 0
      ∧ NumpyOrderIndicator.getMetricSeries t' "ffr" = .ok PSeries.empty :=
  sumAllIndicators_empty_indicators ⟨[]⟩ ["ffr"] none (some 0) "ffr" (by decide)

/-- C8: on the single-timestamp fast path (`start == end`, aligned to the
native frequency) of `CN1min_NumpyQuote.get_data`, a known stock whose table
lacks that timestamp yields None (no exception), and a present timestamp
yields the raw row (no fields) or the field's scalar cell, with the method
argument ignored (no aggregation applied). -/
theorem getData_single_fast_path (q : Quote) (stock : String) (tbl : NTable)
    (t : Nat) (f : String) (i j : Nat)
    (hstock : q.data.lookup stock = some tbl)
    (hsingle : ifSingleData t t q.freq = true) :
    (tbl.idxMap t = none →
        CN1minNumpyQuote.getData q stock t t none none = .ok none
        ∧ (∀ mm : Option Method,
            CN1minNumpyQuote.getData q stock t t (some f) mm = .ok none))
    ∧ (tbl.idxMap t = some i →
        CN1minNumpyQuote.getData q stock t t none none
          = .ok (some (.row (tbl.rows.getD i (0, [])).2)))
    ∧ (tbl.idxMap t = some i → tbl.colMap f = some j →
        ∀ mm : Option Method,
          CN1minNumpyQuote.getData q stock t t (some f) mm
            = .ok (some (.scalar ((tbl.rows.getD i (0, [])).2.getD j .nan)))) := by
  refine ⟨fun habs => ⟨?_, fun mm => ?_⟩, fun hidx => ?_, fun hidx hcol mm => ?_⟩
  · simp [CN1minNumpyQuote.getData, hstock, hsingle, habs]
  · simp [CN1minNumpyQuote.getData, hstock, hsingle, habs]
  · simp [CN1minNumpyQuote.getData, hstock, hsingle, hidx]
  · simp [CN1minNumpyQuote.getData, hstock, hsingle, hidx, hcol]

/-- C8 witness: the fast-path theorem at a one-row table (time 1, field
`$close`, value 10), with the present-timestamp cases at position 0 and,
for the scalar case, an aggregation method that is ignored. -/
theorem getData_single_fast_path_witness :
    ((⟨[(1, [.num 10])], ["$close"]⟩ : NTable).idxMap 1 = none →
        CN1minNumpyQuote.getData ⟨[("A", ⟨[(1, [.num 10])], ["$close"]⟩)], 1⟩
            "A" 1 1 none none = .ok none
        ∧ (∀ mm : Option Method,
            CN1minNumpyQuote.getData ⟨[("A", ⟨[(1, [.num 10])], ["$close"]⟩)], 1⟩
                "A" 1 1 (some "$close") mm = .ok none))
    ∧ ((⟨[(1, [.num 10])], ["$close"]⟩ : NTable).idxMap 1 = some 0 →
        CN1minNumpyQuote.getData ⟨[("A", ⟨[(1, [.num 10])], ["$close"]⟩)], 1⟩
            "A" 1 1 none none
          = .ok (some (.row ((⟨[(1, [.num 10])], ["$close"]⟩ : NTable).rows.getD 0 (0, [])).2)))
    ∧ ((⟨[(1, [.num 10])], ["$close"]⟩ : NTable).idxMap 1 = some 0 →
        (⟨[(1, [.num 10])], ["$close"]⟩ : NTable).colMap "$close" = some 0 →
        ∀ mm : Option Method,
          CN1minNumpyQuote.getData ⟨[("A", ⟨[(1, [.num 10])], ["$close"]⟩)], 1⟩
              "A" 1 1 (some "$close") mm
            = .ok (some (.scalar (((⟨[(1, [.num 10])], ["$close"]⟩ : NTable).rows.getD 0 (0, [])).2.getD 0 .nan)))) :=
  getData_single_fast_path ⟨[("A", ⟨[(1, [.num 10])], ["$close"]⟩)], 1⟩
    "A" ⟨[(1, [.num 10])], ["$close"]⟩ 1 "$close" 0 0 (by decide) (by decide)

/-- C10: on the multi-timestamp path of `CN1min_NumpyQuote.get_data`, a
known stock whose label-range slice `[start, end]` is empty yields None in
all three argument cases (no field and no method; field only; field and
method), never an empty array and never an exception. -/
theorem getData_multi_empty_slice (q : Quote) (stock : String) (tbl : NTable)
    (s e : Nat) (f : String) (j : Nat) (m : Method)
    (hstock : q.data.lookup stock = some tbl)
    (hmulti : ifSingleData s e q.freq = false)
    (hcol : tbl.colMap f = some j)
    (hempty : tbl.locRange s e = []) :
    CN1minNumpyQuote.getData q stock s e none none = .ok none
    ∧ CN1minNumpyQuote.getData q stock s e (some f) none = .ok none
    ∧ CN1minNumpyQuote.getData q stock s e (some f) (some m) = .ok none := by
  refine ⟨?_, ?_, ?_⟩ <;>
    simp [CN1minNumpyQuote.getData, hstock, hmulti, hcol, hempty, NTable.locField]

/-- C10 witness: the theorem at a one-row table (time 1) sliced over the
empty label range `[2, 5]`, with field `$close` and method `sum`. -/
theorem getData_multi_empty_slice_witness :
    CN1minNumpyQuote.getData ⟨[("A", ⟨[(1, [.num 10])], ["$close"]⟩)], 1⟩
        "A" 2 5 none none = .ok none
    ∧ CN1minNumpyQuote.getData ⟨[("A", ⟨[(1, [.num 10])], ["$close"]⟩)], 1⟩
        "A" 2 5 (some "$close") none = .ok none
    ∧ CN1minNumpyQuote.getData ⟨[("A", ⟨[(1, [.num 10])], ["$close"]⟩)], 1⟩
        "A" 2 5 (some "$close") (some .msum) = .ok none :=
  getData_multi_empty_slice ⟨[("A", ⟨[(1, [.num 10])], ["$close"]⟩)], 1⟩
    "A" ⟨[(1, [.num 10])], ["$close"]⟩ 2 5 "$close" 0 .msum
    (by decide) (by decide) (by decide) (by decide)
